import Mathlib

/-!
Verification of the MMM-Multi-Wind module (wind-data fetching, parsing,
retry scheduling, and presentation classification).

The development shallowly embeds the JavaScript source:
- JavaScript numbers are modelled as rationals; all boundary constants in
  the source are decimal literals, which the embedding represents exactly.
- JavaScript Array.prototype.find is modelled by jsFind.
- The JavaScript remainder operator is modelled by jsRem (sign of the
  dividend, truncated division).
- Untyped JSON values are modelled by the Json inductive; an absent
  property (undefined) is modelled by Option.none.
- The timer-driven scheduler of MMM-Multi-Wind.js is modelled as a state
  machine over SchedState whose events are timer firings and response
  arrivals; string translation of compass labels is the identity (the
  translation layer is outside the classifiers).
-/

namespace MultiWind

/-- Model of JavaScript Array.prototype.find: first element satisfying the
predicate, or none. -/
def jsFind {α : Type} (p : α → Bool) : List α → Option α
  | [] => none
  | a :: l => if p a then some a else jsFind p l

/-! ## Beaufort classification (MMM-Multi-Wind.js, getBeaufortForce) -/

/-- The beaufortScale table from getBeaufortForce; `none` as ceiling stands
for the JavaScript Infinity entry. -/
def beaufortScale : List (Option ℚ × ℕ) :=
  [ (some 0.2, 0), (some 1.5, 1), (some 3.3, 2), (some 5.4, 3),
    (some 7.9, 4), (some 10.7, 5), (some 13.8, 6), (some 17.1, 7),
    (some 20.7, 8), (some 24.4, 9), (some 28.4, 10), (some 32.6, 11),
    (none, 12) ]

/-- getBeaufortForce: first scale entry with speed <= max wins (a `none`
ceiling, the Infinity entry, compares true against every speed); the final
entry always matches, so the fallback value 13 is unreachable. -/
def getBeaufortForce (speed : ℚ) : ℕ :=
  match jsFind (fun e => e.1.all (fun m => decide (speed ≤ m))) beaufortScale with
  | some e => e.2
  | none => 13

/-- Modelled from the claim wording for C4: the force of the first bucket,
scanning from the lowest, whose ceiling satisfies s <= ceiling, with any
speed above 32.6 mapping to force 12. -/
def beaufortSpec (s : ℚ) : ℕ :=
  if s ≤ 0.2 then 0
  else if s ≤ 1.5 then 1
  else if s ≤ 3.3 then 2
  else if s ≤ 5.4 then 3
  else if s ≤ 7.9 then 4
  else if s ≤ 10.7 then 5
  else if s ≤ 13.8 then 6
  else if s ≤ 17.1 then 7
  else if s ≤ 20.7 then 8
  else if s ≤ 24.4 then 9
  else if s ≤ 28.4 then 10
  else if s ≤ 32.6 then 11
  else 12

/-! ## Direction classification (getWindDirection, getDirectionIcon) -/

/-- Truncation toward zero, as JavaScript division underlying the
remainder operator. -/
def jsTrunc (q : ℚ) : ℤ :=
  if q < 0 then -(⌊-q⌋) else ⌊q⌋

/-- The JavaScript remainder operator a % b (result has the sign of a). -/
def jsRem (a b : ℚ) : ℚ :=
  a - b * (jsTrunc (a / b) : ℚ)

/-- ((degrees % 360) + 360) % 360, the normalization used by both
direction classifiers. -/
def jsNormalize (degrees : ℚ) : ℚ :=
  jsRem (jsRem degrees 360 + 360) 360

/-- One row of the directions table in getWindDirection. -/
structure DirRange where
  min : ℚ
  max : ℚ
  dir : String

/-- The directions table from getWindDirection. -/
def directions : List DirRange :=
  [ ⟨337.5, 22.5, "N"⟩, ⟨22.5, 67.5, "NE"⟩, ⟨67.5, 112.5, "E"⟩,
    ⟨112.5, 157.5, "SE"⟩, ⟨157.5, 202.5, "S"⟩, ⟨202.5, 247.5, "SW"⟩,
    ⟨247.5, 292.5, "W"⟩, ⟨292.5, 337.5, "NW"⟩ ]

/-- The predicate of the directions.find callback in getWindDirection. -/
def dirMatches (n : ℚ) (r : DirRange) : Bool :=
  (decide (r.min < r.max) && decide (r.min ≤ n) && decide (n < r.max)) ||
  (decide (r.max < r.min) && (decide (r.min ≤ n) || decide (n < r.max)))

/-- The compass branch of getWindDirection: directions.find on the
normalized angle, with the source fallback "N" when find returns nothing. -/
def windDirLookup (n : ℚ) : String :=
  match jsFind (dirMatches n) directions with
  | some r => r.dir
  | none => "N"

/-- getWindDirection: sentinel 0 gives "N/A" in every mode; compass mode
buckets the normalized angle via the directions table; any other mode
renders the raw degree number followed by a degree sign. Translation of
the compass label is modelled as the identity. -/
def getWindDirection (directionType : String) (degrees : ℚ) : String :=
  if degrees = 0 then "N/A"
  else if directionType = "compass" then windDirLookup (jsNormalize degrees)
  else toString degrees ++ "°"

/-- The comparison chain of getDirectionIcon over the normalized angle.
The trailing "wi-na" return of the source is kept as the final else. -/
def dirIconLookup (n : ℚ) : String :=
  if 337.5 < n ∨ n ≤ 22.5 then "wi-direction-down"
  else if n ≤ 67.5 then "wi-direction-down-left"
  else if n ≤ 112.5 then "wi-direction-left"
  else if n ≤ 157.5 then "wi-direction-up-left"
  else if n ≤ 202.5 then "wi-direction-up"
  else if n ≤ 247.5 then "wi-direction-up-right"
  else if n ≤ 292.5 then "wi-direction-right"
  else if n ≤ 337.5 then "wi-direction-down-right"
  else "wi-na"

/-- getDirectionIcon: sentinel 0 gives the unavailable icon; otherwise the
normalized angle is bucketed by the comparison chain. -/
def getDirectionIcon (degrees : ℚ) : String :=
  if degrees = 0 then "wi-na"
  else dirIconLookup (jsNormalize degrees)

/-- The association between a compass octant label and the icon the source
uses for winds from that octant (the icon points where the wind blows to,
so north maps to the downward icon). Used to state agreement between the
two direction classifiers. -/
def iconOfOctant (octant : String) : String :=
  if octant = "N" then "wi-direction-down"
  else if octant = "NE" then "wi-direction-down-left"
  else if octant = "E" then "wi-direction-left"
  else if octant = "SE" then "wi-direction-up-left"
  else if octant = "S" then "wi-direction-up"
  else if octant = "SW" then "wi-direction-up-right"
  else if octant = "W" then "wi-direction-right"
  else if octant = "NW" then "wi-direction-down-right"
  else "wi-na"

/-- The eight octant boundary values 22.5 + k * 45 inside [0, 360). -/
def octantBoundaries : List ℚ :=
  [22.5, 67.5, 112.5, 157.5, 202.5, 247.5, 292.5, 337.5]

/-! ## Untyped JSON values (node_helper.js works on parsed JSON) -/

/-- Untyped JSON values; numbers are rationals. -/
inductive Json where
  | num (q : ℚ)
  | str (s : String)
  | bool (b : Bool)
  | null
  | arr (elems : List Json)
  | obj (fields : List (String × Json))

/-- Property access j.key (or optional-chained j?.key applied to a present
value): a lookup in an object, undefined (none) on every other value. -/
def jget : Json → String → Option Json
  | .obj fields, key => (jsFind (fun f => f.1 == key) fields).map (fun f => f.2)
  | _, _ => none

/-- Index access j[i] on an array; undefined (none) on other values. -/
def jidx : Json → ℕ → Option Json
  | .arr elems, i => elems.get? i
  | _, _ => none

/-- JavaScript truthiness of a JSON value. -/
def truthy : Json → Bool
  | .num q => decide (q ≠ 0)
  | .str s => decide (s ≠ "")
  | .bool b => b
  | .null => false
  | .arr _ => true
  | .obj _ => true

/-- Optional chaining o?.key, where none stands for undefined (and for the
null short-circuit). -/
def oget (o : Option Json) (key : String) : Option Json :=
  o.bind (fun j => jget j key)

/-- Optional chaining o?.[i]. -/
def oidx (o : Option Json) (i : ℕ) : Option Json :=
  o.bind (fun j => jidx j i)

/-- Strict equality of a possibly-undefined value against a string
literal, as in p.name === "ws". -/
def jstrEq (o : Option Json) (s : String) : Bool :=
  match o with
  | some (.str t) => t == s
  | _ => false

/-! ## Provider response parsing (node_helper.js) -/

/-- The payload object built by the parsers and sent with WIND_DATA.
Each field is a JSON value or undefined (none): the YR parser can produce
undefined fields, see parseYrData. -/
structure WindPayload where
  windSpeed : Option Json
  windDirection : Option Json

/-- The chain data?.properties?.timeseries?.[0]?.data?.instant?.details of
parseYrData. -/
def yrDetails (data : Json) : Option Json :=
  oget (oget (oget (oidx (oget (oget (some data) "properties")
    "timeseries") 0) "data") "instant") "details"

/-- parseYrData: throws on a missing or falsy details block, otherwise
returns the two detail fields without checking that they are present or
numeric. -/
def parseYrData (data : Json) : Except String WindPayload :=
  match yrDetails data with
  | none => .error "Invalid YR data structure"
  | some details =>
    if truthy details then
      .ok ⟨jget details "wind_speed", jget details "wind_from_direction"⟩
    else .error "Invalid YR data structure"

/-- The chain data?.timeSeries?.[0]?.parameters of parseSmhiData. -/
def smhiParameters (data : Json) : Option Json :=
  oget (oidx (oget (some data) "timeSeries") 0) "parameters"

/-- parameters.find(p => p.name === name) of parseSmhiData. The callback
reads p.name with a plain (not optional-chained) access, so a null array
element makes the source throw a TypeError, which aborts the whole parse;
on every other element the access yields the property or undefined and
the scan continues past non-matches. -/
def smhiFindParam (paramName : String) : List Json → Except String (Option Json)
  | [] => .ok none
  | p :: rest =>
    match p with
    | .null => .error "TypeError: Cannot read properties of null"
    | _ =>
      if jstrEq (jget p "name") paramName then .ok (some p)
      else smhiFindParam paramName rest

/-- parameters.find(p => p.name === name)?.values?.[0] of parseSmhiData:
a throw inside find propagates; otherwise the found element (or
undefined) is taken through the optional chain. -/
def smhiFirstValue (params : List Json) (paramName : String) : Except String (Option Json) :=
  (smhiFindParam paramName params).map (fun found => oidx (oget found "values") 0)

/-- parseSmhiData: throws on a missing or falsy parameters value, looks up
the first values of the parameters named "ws" and "wd" (each lookup can
itself throw, see smhiFindParam), and requires both values to be numbers.
A truthy non-array parameters value makes the source crash on .find with
a TypeError, modelled as an error result since the caller turns every
thrown error into the same failure signal. -/
def parseSmhiData (data : Json) : Except String WindPayload :=
  match smhiParameters data with
  | none => .error "Invalid SMHI data structure"
  | some ps =>
    if truthy ps then
      match ps with
      | .arr params =>
        match smhiFirstValue params "ws" with
        | .error e => .error e
        | .ok windSpeed =>
          match smhiFirstValue params "wd" with
          | .error e => .error e
          | .ok windDirection =>
            match windSpeed, windDirection with
            | some (.num s), some (.num w) => .ok ⟨some (.num s), some (.num w)⟩
            | _, _ => .error "Missing wind parameters"
      | _ => .error "TypeError: find is not a function"
    else .error "Invalid SMHI data structure"

/-- parseProviderData: dispatch on the provider string; every provider
other than "yr" uses the SMHI parser. The try/catch of the source rethrows
unchanged, so it is the identity on the result. -/
def parseProviderData (data : Json) (provider : String) : Except String WindPayload :=
  if provider = "yr" then parseYrData data else parseSmhiData data

/-! ## Fetch and acquisition outcome (node_helper.js, getWindData) -/

/-- The body delivered with a 200 response, abstracted by the outcome of
JSON.parse on it. -/
inductive RawBody where
  | malformed
  | wellFormed (json : Json)

/-- The possible outcomes of the https request of getWindData. -/
inductive FetchOutcome where
  | timeout
  | transportError
  | response (status : ℕ) (body : RawBody)

/-- The socket notifications getWindData can send. WIND_DATA_ERROR is sent
without any payload, so the constructor carries no information. -/
inductive Notification where
  | windData (payload : WindPayload)
  | windDataError

/-- getWindData, as a function from the fetch outcome to the notification
sent, paired with whether the provider parser was invoked. A non-200
status resumes the stream and reports the error before any body handling;
a JSON.parse failure reports the error without reaching the provider
parser; a provider-parser throw is caught and reported the same way. -/
def getWindData (provider : String) (outcome : FetchOutcome) : Notification × Bool :=
  match outcome with
  | .timeout => (.windDataError, false)
  | .transportError => (.windDataError, false)
  | .response status body =>
    if status ≠ 200 then (.windDataError, false)
    else
      match body with
      | .malformed => (.windDataError, false)
      | .wellFormed j =>
        match parseProviderData j provider with
        | .ok payload => (.windData payload, true)
        | .error _ => (.windDataError, true)

/-! ## Scheduler and retry state machine (MMM-Multi-Wind.js) -/

/-- The scheduling configuration the state machine consumes. The time
lengths updateInterval and retryDelay only determine when the timers fire;
firings are events of the machine, so only maxRetries is carried. -/
structure SchedConfig where
  maxRetries : ℕ

/-- The source default maxRetries: 3. -/
def defaultSchedConfig : SchedConfig := ⟨3⟩

/-- The mutable module state of MMM-Multi-Wind.js, together with
bookkeeping for outstanding work: inflight counts GET_WIND_DATA requests
sent but not yet answered, retryPending counts armed retry timers, and
issued counts all GET_WIND_DATA notifications ever sent. -/
structure SchedState where
  loaded : Bool
  windData : Option WindPayload
  retryCount : ℕ
  inflight : ℕ
  retryPending : ℕ
  issued : ℕ

/-- The events that drive the module: a periodic-timer firing, a
retry-timer firing, and the arrival of a success or failure notification
for one in-flight request. -/
inductive SchedEvent where
  | tick
  | retryFire
  | success (payload : WindPayload)
  | failure

/-- getData: returns without sending anything when retryCount has reached
maxRetries, otherwise sends one GET_WIND_DATA request. -/
def getData (cfg : SchedConfig) (s : SchedState) : SchedState :=
  if s.retryCount ≥ cfg.maxRetries then s
  else { s with inflight := s.inflight + 1, issued := s.issued + 1 }

/-- One step of the scheduler. tick is the setInterval firing, which calls
getData unconditionally; retryFire consumes one armed retry timer and
calls getData; success is socketNotificationReceived(WIND_DATA): set the
data, reset retryCount; failure is
socketNotificationReceived(WIND_DATA_ERROR): clear the data, increment
retryCount and arm a retry timer only while the incremented retryCount is
still below maxRetries. Response events require an in-flight request. -/
def step (cfg : SchedConfig) (s : SchedState) : SchedEvent → SchedState
  | .tick => getData cfg s
  | .retryFire =>
    if s.retryPending = 0 then s
    else getData cfg { s with retryPending := s.retryPending - 1 }
  | .success payload =>
    if s.inflight = 0 then s
    else
      { loaded := true, windData := some payload, retryCount := 0,
        inflight := s.inflight - 1, retryPending := s.retryPending,
        issued := s.issued }
  | .failure =>
    if s.inflight = 0 then s
    else
      { loaded := true, windData := none, retryCount := s.retryCount + 1,
        inflight := s.inflight - 1,
        retryPending := if s.retryCount + 1 < cfg.maxRetries
                        then s.retryPending + 1 else s.retryPending,
        issued := s.issued }

/-- The state right after start(): fresh state, then the immediate getData
call of scheduleUpdate. -/
def startState (cfg : SchedConfig) : SchedState :=
  getData cfg ⟨false, none, 0, 0, 0, 0⟩

/-- Run a sequence of events from a state. -/
def runEvents (cfg : SchedConfig) (s : SchedState) (events : List SchedEvent) : SchedState :=
  events.foldl (step cfg) s

/-- What getDom renders from the module state: the loading text while not
loaded, the generic error text when windData is null, and the wind data
otherwise. -/
inductive RenderState where
  | loading
  | error
  | display (payload : WindPayload)

/-- The branch getDom takes on a module state. -/
def getDomState (s : SchedState) : RenderState :=
  if s.loaded = false then .loading
  else
    match s.windData with
    | none => .error
    | some payload => .display payload

/-! ## Concrete example documents -/

/-- A YR response whose details block exists but carries neither
wind_speed nor wind_from_direction. -/
def exYrNoWind : Json :=
  .obj [("properties", .obj [("timeseries", .arr [
    .obj [("data", .obj [("instant", .obj [("details",
      .obj [("air_temperature", .num 5)])])])]])])]

/-- A well-formed SMHI parameter list with ws first value 7.5 and wd first
value 180. -/
def exSmhiParams : List Json :=
  [ .obj [("name", .str "t"), ("values", .arr [.num 12])],
    .obj [("name", .str "ws"), ("values", .arr [.num 7.5, .num 8])],
    .obj [("name", .str "wd"), ("values", .arr [.num 180, .num 190])] ]

/-- A well-formed SMHI response document around exSmhiParams. -/
def exSmhiDoc : Json :=
  .obj [("timeSeries", .arr [
    .obj [("validTime", .str "2024-01-05T00:00:00Z"),
          ("parameters", .arr exSmhiParams)]])]

/-- An SMHI response whose parameters lack the "wd" entry entirely. -/
def exSmhiNoWd : Json :=
  .obj [("timeSeries", .arr [
    .obj [("parameters", .arr [
      .obj [("name", .str "ws"), ("values", .arr [.num 7.5])]])]])]

/-- An SMHI response whose parameters array starts with a null element
before well-formed ws and wd entries: the find callback crashes on it. -/
def exSmhiNullParam : Json :=
  .obj [("timeSeries", .arr [
    .obj [("parameters", .arr [ .null,
      .obj [("name", .str "ws"), ("values", .arr [.num 7])],
      .obj [("name", .str "wd"), ("values", .arr [.num 180])]])]])]

/-! ## Coordinate formatting and URL building (node_helper.js) -/

/-- The character of a decimal digit (only applied to numbers below 10). -/
def digitChar : ℕ → Char
  | 0 => '0'
  | 1 => '1'
  | 2 => '2'
  | 3 => '3'
  | 4 => '4'
  | 5 => '5'
  | 6 => '6'
  | 7 => '7'
  | 8 => '8'
  | 9 => '9'
  | _ => '0'

/-- Decimal digit characters of a natural number, most significant first,
with enough fuel to terminate (one division by ten per unit of fuel). -/
def natDigitsAux : ℕ → ℕ → List Char
  | 0, _ => []
  | fuel + 1, m =>
    if m < 10 then [digitChar m]
    else natDigitsAux fuel (m / 10) ++ [digitChar (m % 10)]

/-- Decimal rendering of a natural number, as ToString produces it. -/
def natDigits (m : ℕ) : List Char :=
  natDigitsAux (m + 1) m

/-- The six digit characters after the decimal point, zero padded, for a
fractional part f below 10^6. -/
def fracDigits6 (f : ℕ) : List Char :=
  (List.range 6).map (fun k => digitChar (f / 10 ^ (5 - k) % 10))

/-- Number.prototype.toFixed(6) on a nonnegative rational: round q * 10^6
to the nearest integer (ties away from zero for nonnegative input), then
print integer part, a point and six fraction digits. -/
def toFixed6Nonneg (q : ℚ) : String :=
  let n : ℕ := (⌊q * 1000000 + 1/2⌋).toNat
  String.mk (natDigits (n / 1000000)) ++ "." ++ String.mk (fracDigits6 (n % 1000000))

/-- Number.prototype.toFixed(6): a minus sign followed by the rendering of
the absolute value when negative. -/
def toFixed6 (q : ℚ) : String :=
  if q < 0 then "-" ++ toFixed6Nonneg (-q) else toFixed6Nonneg q

/-- formatCoordinate of node_helper.js: the string branch of the source
concerns string-typed configuration and numeric configuration reaches
toFixed directly. -/
def formatCoordinate (coord : ℚ) : String :=
  toFixed6 coord

/-- The configuration fields getProviderUrl consumes. -/
structure UrlConfig where
  provider : String
  lat : ℚ
  lon : ℚ
  altitude : ℤ

/-- getProviderUrl: the YR branch interpolates altitude, lat and lon raw;
the SMHI branch embeds the six-decimal formatted longitude and then the
formatted latitude in the path. -/
def getProviderUrl (config : UrlConfig) : String :=
  if config.provider = "yr" then
    "https://api.met.no/weatherapi/locationforecast/2.0/complete?altitude="
      ++ toString config.altitude ++ "&lat=" ++ toString config.lat
      ++ "&lon=" ++ toString config.lon
  else
    "https://opendata-download-metfcst.smhi.se/api/category/pmp3g/version/2/geotype/point/lon/"
      ++ formatCoordinate config.lon ++ "/lat/" ++ formatCoordinate config.lat
      ++ "/data.json"

/-- What it means for a string to show exactly six digits after the
decimal point: a unique point character, followed by exactly six digit
characters that end the string. -/
def sixFracDigits (s : String) : Prop :=
  ∃ pre post, s.data = pre ++ '.' :: post ∧ post.length = 6 ∧
    (∀ c ∈ post, c.isDigit = true) ∧ '.' ∉ pre ∧ '.' ∉ post

/-! ## Theorems -/

theorem digitChar_fact (m : ℕ) (hm : m < 10) :
    (digitChar m).isDigit = true ∧ digitChar m ≠ '.' := by
  interval_cases m <;> exact ⟨rfl, by decide⟩

theorem natDigitsAux_chars (fuel : ℕ) :
    ∀ (m : ℕ) (c : Char), c ∈ natDigitsAux fuel m → c.isDigit = true ∧ c ≠ '.' := by
  induction fuel with
  | zero =>
    intro m c hc
    simp [natDigitsAux] at hc
  | succ fuel ih =>
    intro m c hc
    unfold natDigitsAux at hc
    by_cases hm : m < 10
    · rw [if_pos hm] at hc
      simp at hc
      subst hc
      exact digitChar_fact m hm
    · rw [if_neg hm] at hc
      rw [List.mem_append] at hc
      rcases hc with hc | hc
      · exact ih _ c hc
      · simp at hc
        subst hc
        exact digitChar_fact _ (Nat.mod_lt _ (by norm_num))

theorem natDigits_chars (m : ℕ) :
    ∀ c ∈ natDigits m, c.isDigit = true ∧ c ≠ '.' :=
  fun c hc => natDigitsAux_chars (m + 1) m c hc

theorem fracDigits6_length (f : ℕ) : (fracDigits6 f).length = 6 := by
  simp [fracDigits6]

theorem fracDigits6_chars (f : ℕ) :
    ∀ c ∈ fracDigits6 f, c.isDigit = true ∧ c ≠ '.' := by
  intro c hc
  simp only [fracDigits6, List.mem_map, List.mem_range] at hc
  obtain ⟨k, hk, rfl⟩ := hc
  exact digitChar_fact _ (Nat.mod_lt _ (by norm_num))

theorem toFixed6Nonneg_digits (q : ℚ) : sixFracDigits (toFixed6Nonneg q) := by
  refine ⟨natDigits ((⌊q * 1000000 + 1/2⌋).toNat / 1000000),
          fracDigits6 ((⌊q * 1000000 + 1/2⌋).toNat % 1000000),
          ?_, fracDigits6_length _, fun c hc => (fracDigits6_chars _ c hc).1,
          ?_, ?_⟩
  · show (toFixed6Nonneg q).data = _
    unfold toFixed6Nonneg
    show (natDigits _ ++ ['.']) ++ fracDigits6 _ = _
    rw [List.append_assoc]
    rfl
  · intro hdot
    exact (natDigits_chars _ '.' hdot).2 rfl
  · intro hdot
    exact (fracDigits6_chars _ '.' hdot).2 rfl

theorem toFixed6_digits (q : ℚ) : sixFracDigits (toFixed6 q) := by
  unfold toFixed6
  by_cases hq : q < 0
  · rw [if_pos hq]
    obtain ⟨pre, post, hdata, h6, hdig, hpre, hpost⟩ := toFixed6Nonneg_digits (-q)
    refine ⟨'-' :: pre, post, ?_, h6, hdig, ?_, hpost⟩
    · show '-' :: (toFixed6Nonneg (-q)).data = _
      rw [hdata]
      rfl
    · intro hdot
      rcases List.mem_cons.mp hdot with h | h
      · exact absurd h (by decide)
      · exact hpre h
  · rw [if_neg hq]
    exact toFixed6Nonneg_digits q

theorem formatCoordinate_eleven : formatCoordinate 11 = "11.000000" := by
  have hfloor : (⌊(11:ℚ) * 1000000 + 1/2⌋ : ℤ) = 11000000 := by
    rw [Int.floor_eq_iff]
    constructor <;> norm_num
  unfold formatCoordinate toFixed6
  rw [if_neg (by norm_num : ¬((11:ℚ) < 0))]
  unfold toFixed6Nonneg
  rw [hfloor]
  decide

theorem jsFind_nil {α : Type} (p : α → Bool) : jsFind p [] = none := rfl

theorem jsFind_cons {α : Type} (p : α → Bool) (a : α) (l : List α) :
    jsFind p (a :: l) = if p a then some a else jsFind p l := rfl

/-- C4: for every speed s >= 0, the Beaufort classifier returns the force
of the first bucket, scanning from the lowest, whose ceiling satisfies
s <= ceiling, with ceilings 0.2 .. 32.6 mapping to forces 0..11 and any
larger speed mapping to 12; in particular the four boundary cases
getBeaufortForce 0.2 = 0, 0.3 = 1, 32.6 = 11, 32.7 = 12. -/
theorem c4_beaufort_first_bucket :
    (∀ s : ℚ, 0 ≤ s → getBeaufortForce s = beaufortSpec s) ∧
    getBeaufortForce 0.2 = 0 ∧ getBeaufortForce 0.3 = 1 ∧
    getBeaufortForce 32.6 = 11 ∧ getBeaufortForce 32.7 = 12 := by
  have key : ∀ s : ℚ, getBeaufortForce s = beaufortSpec s := by
    intro s
    simp only [getBeaufortForce, beaufortScale, jsFind_cons, jsFind_nil,
      Option.all_some, Option.all_none, decide_eq_true_eq, beaufortSpec]
    by_cases h0 : s ≤ (0.2:ℚ)
    · rw [if_pos h0, if_pos h0]
    rw [if_neg h0, if_neg h0]
    by_cases h1 : s ≤ (1.5:ℚ)
    · rw [if_pos h1, if_pos h1]
    rw [if_neg h1, if_neg h1]
    by_cases h2 : s ≤ (3.3:ℚ)
    · rw [if_pos h2, if_pos h2]
    rw [if_neg h2, if_neg h2]
    by_cases h3 : s ≤ (5.4:ℚ)
    · rw [if_pos h3, if_pos h3]
    rw [if_neg h3, if_neg h3]
    by_cases h4 : s ≤ (7.9:ℚ)
    · rw [if_pos h4, if_pos h4]
    rw [if_neg h4, if_neg h4]
    by_cases h5 : s ≤ (10.7:ℚ)
    · rw [if_pos h5, if_pos h5]
    rw [if_neg h5, if_neg h5]
    by_cases h6 : s ≤ (13.8:ℚ)
    · rw [if_pos h6, if_pos h6]
    rw [if_neg h6, if_neg h6]
    by_cases h7 : s ≤ (17.1:ℚ)
    · rw [if_pos h7, if_pos h7]
    rw [if_neg h7, if_neg h7]
    by_cases h8 : s ≤ (20.7:ℚ)
    · rw [if_pos h8, if_pos h8]
    rw [if_neg h8, if_neg h8]
    by_cases h9 : s ≤ (24.4:ℚ)
    · rw [if_pos h9, if_pos h9]
    rw [if_neg h9, if_neg h9]
    by_cases h10 : s ≤ (28.4:ℚ)
    · rw [if_pos h10, if_pos h10]
    rw [if_neg h10, if_neg h10]
    by_cases h11 : s ≤ (32.6:ℚ)
    · rw [if_pos h11, if_pos h11]
    rw [if_neg h11, if_neg h11]
    rw [if_pos trivial]
  refine ⟨fun s _ => key s, ?_, ?_, ?_, ?_⟩ <;>
    rw [key] <;> norm_num [beaufortSpec]

/-- Witness for C4 at the concrete speed 3: the hypothesis 0 <= 3 holds and
the classifier agrees with the first-bucket description there. -/
theorem c4_beaufort_first_bucket_witness :
    (0:ℚ) ≤ 3 ∧ getBeaufortForce 3 = beaufortSpec 3 :=
  ⟨by norm_num, c4_beaufort_first_bucket.1 3 (by norm_num)⟩

/-- The Boolean find predicate of getWindDirection, as a proposition. -/
theorem dirMatches_spec (n : ℚ) (r : DirRange) :
    dirMatches n r = true ↔
      ((r.min < r.max ∧ r.min ≤ n ∧ n < r.max) ∨
       (r.max < r.min ∧ (r.min ≤ n ∨ n < r.max))) := by
  simp [dirMatches, and_assoc]

/-- Characterization of the directions.find scan as a comparison chain. -/
theorem windDirLookup_eq (n : ℚ) :
    windDirLookup n =
      if 337.5 ≤ n ∨ n < 22.5 then "N"
      else if 22.5 ≤ n ∧ n < 67.5 then "NE"
      else if 67.5 ≤ n ∧ n < 112.5 then "E"
      else if 112.5 ≤ n ∧ n < 157.5 then "SE"
      else if 157.5 ≤ n ∧ n < 202.5 then "S"
      else if 202.5 ≤ n ∧ n < 247.5 then "SW"
      else if 247.5 ≤ n ∧ n < 292.5 then "W"
      else if 292.5 ≤ n ∧ n < 337.5 then "NW"
      else "N" := by
  unfold windDirLookup
  simp only [directions, jsFind_cons, jsFind_nil, dirMatches_spec]
  norm_num
  by_cases h0 : (675/2:ℚ) ≤ n ∨ n < 45/2
  · rw [if_pos h0, if_pos h0]
  rw [if_neg h0, if_neg h0]
  by_cases h1 : (45/2:ℚ) ≤ n ∧ n < 135/2
  · rw [if_pos h1, if_pos h1]
  rw [if_neg h1, if_neg h1]
  by_cases h2 : (135/2:ℚ) ≤ n ∧ n < 225/2
  · rw [if_pos h2, if_pos h2]
  rw [if_neg h2, if_neg h2]
  by_cases h3 : (225/2:ℚ) ≤ n ∧ n < 315/2
  · rw [if_pos h3, if_pos h3]
  rw [if_neg h3, if_neg h3]
  by_cases h4 : (315/2:ℚ) ≤ n ∧ n < 405/2
  · rw [if_pos h4, if_pos h4]
  rw [if_neg h4, if_neg h4]
  by_cases h5 : (405/2:ℚ) ≤ n ∧ n < 495/2
  · rw [if_pos h5, if_pos h5]
  rw [if_neg h5, if_neg h5]
  by_cases h6 : (495/2:ℚ) ≤ n ∧ n < 585/2
  · rw [if_pos h6, if_pos h6]
  rw [if_neg h6, if_neg h6]
  by_cases h7 : (585/2:ℚ) ≤ n ∧ n < 675/2
  · rw [if_pos h7, if_pos h7]
  rw [if_neg h7, if_neg h7]

/-- The normalization lands in [0, 360) for nonnegative input. -/
theorem jsRem360_of_nonneg (a : ℚ) (ha : 0 ≤ a) :
    jsRem a 360 = a - 360 * (⌊a / 360⌋ : ℚ) ∧ 0 ≤ jsRem a 360 ∧ jsRem a 360 < 360 := by
  have htr : jsTrunc (a / 360) = ⌊a / 360⌋ := by
    unfold jsTrunc
    rw [if_neg]
    simp only [not_lt]
    positivity
  refine ⟨by unfold jsRem; rw [htr], ?_, ?_⟩
  · unfold jsRem
    rw [htr]
    have h := Int.floor_le (a / 360)
    nlinarith
  · unfold jsRem
    rw [htr]
    have h := Int.lt_floor_add_one (a / 360)
    nlinarith

/-- The JavaScript remainder of a negative number by 360 lies in (-360, 0]. -/
theorem jsRem360_of_neg (a : ℚ) (ha : a < 0) :
    -360 < jsRem a 360 ∧ jsRem a 360 ≤ 0 := by
  have hneg : a / 360 < 0 := div_neg_of_neg_of_pos ha (by norm_num)
  have htr : jsTrunc (a / 360) = -⌊-(a / 360)⌋ := by
    unfold jsTrunc
    rw [if_pos hneg]
  constructor
  · unfold jsRem
    rw [htr]
    have h := Int.lt_floor_add_one (-(a / 360))
    push_cast at h ⊢
    nlinarith
  · unfold jsRem
    rw [htr]
    have h := Int.floor_le (-(a / 360))
    push_cast at h ⊢
    nlinarith

/-- jsNormalize always lands in [0, 360). -/
theorem jsNormalize_bounds (d : ℚ) : 0 ≤ jsNormalize d ∧ jsNormalize d < 360 := by
  unfold jsNormalize
  rcases le_or_lt 0 d with hd | hd
  · obtain ⟨-, h0, h1⟩ := jsRem360_of_nonneg d hd
    obtain ⟨-, h2, h3⟩ := jsRem360_of_nonneg (jsRem d 360 + 360) (by linarith)
    exact ⟨h2, h3⟩
  · obtain ⟨h0, h1⟩ := jsRem360_of_neg d hd
    obtain ⟨-, h2, h3⟩ := jsRem360_of_nonneg (jsRem d 360 + 360) (by linarith)
    exact ⟨h2, h3⟩

/-- C5: direction input exactly 0 classifies as the unavailable marker in
every configured direction mode (text classifier and icon classifier),
while direction input 360 normalizes to the north compass bucket, both as
the text "N" in compass mode and as the northern icon, and is never
treated as the sentinel. -/
theorem c5_zero_sentinel_not_360 :
    (∀ directionType : String, getWindDirection directionType 0 = "N/A") ∧
    getDirectionIcon 0 = "wi-na" ∧
    getWindDirection "compass" 360 = "N" ∧
    getDirectionIcon 360 = "wi-direction-down" ∧
    (∀ directionType : String, getWindDirection directionType 360 ≠ "N/A") ∧
    getDirectionIcon 360 ≠ "wi-na" := by
  have h360 : ¬((360:ℚ) = 0) := by norm_num
  have hnorm : jsNormalize 360 = 0 := by norm_num [jsNormalize, jsRem, jsTrunc]
  have hcompass : getWindDirection "compass" 360 = "N" := by
    unfold getWindDirection
    rw [if_neg h360, if_pos rfl, hnorm, windDirLookup_eq]
    norm_num
  have hicon : getDirectionIcon 360 = "wi-direction-down" := by
    unfold getDirectionIcon
    rw [if_neg h360, hnorm]
    unfold dirIconLookup
    norm_num
  refine ⟨?_, ?_, hcompass, hicon, ?_, ?_⟩
  · intro dt
    unfold getWindDirection
    rw [if_pos rfl]
  · unfold getDirectionIcon
    rw [if_pos rfl]
  · intro dt
    unfold getWindDirection
    rw [if_neg h360]
    by_cases hdt : dt = "compass"
    · rw [if_pos hdt, hnorm, windDirLookup_eq]
      norm_num
      decide
    · rw [if_neg hdt]
      intro hEq
      have := congrArg (fun t => t.data.getLast?) hEq
      simp at this
  · rw [hicon]
    decide

/-- C6 counterexample: at the exact boundary 337.5 the text classifier
gives the "N" octant while the icon classifier gives the NW octant icon,
so the two classifiers do not agree at every exact boundary value. -/
theorem c6_boundary_disagrees :
    getWindDirection "compass" 337.5 = "N" ∧
    getDirectionIcon 337.5 = "wi-direction-down-right" ∧
    getDirectionIcon 337.5 ≠ iconOfOctant (getWindDirection "compass" 337.5) := by
  have hnz : ¬((337.5:ℚ) = 0) := by norm_num
  have hnorm : jsNormalize 337.5 = 337.5 := by norm_num [jsNormalize, jsRem, jsTrunc]
  have h1 : getWindDirection "compass" 337.5 = "N" := by
    unfold getWindDirection
    rw [if_neg hnz, if_pos rfl, hnorm, windDirLookup_eq]
    norm_num
  have h2 : getDirectionIcon 337.5 = "wi-direction-down-right" := by
    unfold getDirectionIcon
    rw [if_neg hnz, hnorm]
    unfold dirIconLookup
    norm_num
  exact ⟨h1, h2, by rw [h1, h2]; decide⟩

/-- C6 amended: for every nonzero direction whose normalized value is not
one of the eight exact octant boundaries 22.5 + k * 45, the compass text
classifier and the icon classifier assign the same 45-degree octant: the
icon returned is the icon of the octant the text classifier names. At the
boundary values themselves the classifiers disagree (see the
counterexample at 337.5). -/
theorem c6_octant_agreement_off_boundaries :
    ∀ d : ℚ, d ≠ 0 → jsNormalize d ∉ octantBoundaries →
      getDirectionIcon d = iconOfOctant (getWindDirection "compass" d) := by
  intro d hd hb
  obtain ⟨hge, hlt⟩ := jsNormalize_bounds d
  unfold getDirectionIcon getWindDirection
  rw [if_neg hd, if_neg hd, if_pos rfl, windDirLookup_eq]
  unfold dirIconLookup
  set n := jsNormalize d with hn
  simp only [octantBoundaries, List.mem_cons, List.not_mem_nil, or_false, not_or] at hb
  obtain ⟨b1, b2, b3, b4, b5, b6, b7, b8⟩ := hb
  rcases le_or_lt n 22.5 with h1 | h1
  · have h1s : n < 22.5 := lt_of_le_of_ne h1 b1
    rw [if_pos (Or.inr h1), if_pos (Or.inr h1s)]
    rfl
  rcases le_or_lt n 67.5 with h2 | h2
  · have h2s : n < 67.5 := lt_of_le_of_ne h2 b2
    rw [if_neg (by push_neg; exact ⟨by linarith, h1⟩),
        if_pos h2,
        if_neg (by push_neg; exact ⟨by linarith, h1.le⟩),
        if_pos ⟨h1.le, h2s⟩]
    rfl
  rcases le_or_lt n 112.5 with h3 | h3
  · have h3s : n < 112.5 := lt_of_le_of_ne h3 b3
    rw [if_neg (by push_neg; exact ⟨by linarith, h1⟩),
        if_neg (not_le.mpr h2),
        if_pos h3,
        if_neg (by push_neg; exact ⟨by linarith, h1.le⟩),
        if_neg (by rintro ⟨x, y⟩ ; linarith),
        if_pos ⟨h2.le, h3s⟩]
    rfl
  rcases le_or_lt n 157.5 with h4 | h4
  · have h4s : n < 157.5 := lt_of_le_of_ne h4 b4
    rw [if_neg (by push_neg; exact ⟨by linarith, h1⟩),
        if_neg (not_le.mpr h2),
        if_neg (not_le.mpr h3),
        if_pos h4,
        if_neg (by push_neg; exact ⟨by linarith, h1.le⟩),
        if_neg (by rintro ⟨x, y⟩ ; linarith),
        if_neg (by rintro ⟨x, y⟩ ; linarith),
        if_pos ⟨h3.le, h4s⟩]
    rfl
  rcases le_or_lt n 202.5 with h5 | h5
  · have h5s : n < 202.5 := lt_of_le_of_ne h5 b5
    rw [if_neg (by push_neg; exact ⟨by linarith, h1⟩),
        if_neg (not_le.mpr h2),
        if_neg (not_le.mpr h3),
        if_neg (not_le.mpr h4),
        if_pos h5,
        if_neg (by push_neg; exact ⟨by linarith, h1.le⟩),
        if_neg (by rintro ⟨x, y⟩ ; linarith),
        if_neg (by rintro ⟨x, y⟩ ; linarith),
        if_neg (by rintro ⟨x, y⟩ ; linarith),
        if_pos ⟨h4.le, h5s⟩]
    rfl
  rcases le_or_lt n 247.5 with h6 | h6
  · have h6s : n < 247.5 := lt_of_le_of_ne h6 b6
    rw [if_neg (by push_neg; exact ⟨by linarith, h1⟩),
        if_neg (not_le.mpr h2),
        if_neg (not_le.mpr h3),
        if_neg (not_le.mpr h4),
        if_neg (not_le.mpr h5),
        if_pos h6,
        if_neg (by push_neg; exact ⟨by linarith, h1.le⟩),
        if_neg (by rintro ⟨x, y⟩ ; linarith),
        if_neg (by rintro ⟨x, y⟩ ; linarith),
        if_neg (by rintro ⟨x, y⟩ ; linarith),
        if_neg (by rintro ⟨x, y⟩ ; linarith),
        if_pos ⟨h5.le, h6s⟩]
    rfl
  rcases le_or_lt n 292.5 with h7 | h7
  · have h7s : n < 292.5 := lt_of_le_of_ne h7 b7
    rw [if_neg (by push_neg; exact ⟨by linarith, h1⟩),
        if_neg (not_le.mpr h2),
        if_neg (not_le.mpr h3),
        if_neg (not_le.mpr h4),
        if_neg (not_le.mpr h5),
        if_neg (not_le.mpr h6),
        if_pos h7,
        if_neg (by push_neg; exact ⟨by linarith, h1.le⟩),
        if_neg (by rintro ⟨x, y⟩ ; linarith),
        if_neg (by rintro ⟨x, y⟩ ; linarith),
        if_neg (by rintro ⟨x, y⟩ ; linarith),
        if_neg (by rintro ⟨x, y⟩ ; linarith),
        if_neg (by rintro ⟨x, y⟩ ; linarith),
        if_pos ⟨h6.le, h7s⟩]
    rfl
  rcases le_or_lt n 337.5 with h8 | h8
  · have h8s : n < 337.5 := lt_of_le_of_ne h8 b8
    rw [if_neg (by push_neg; exact ⟨by linarith, h1⟩),
        if_neg (not_le.mpr h2),
        if_neg (not_le.mpr h3),
        if_neg (not_le.mpr h4),
        if_neg (not_le.mpr h5),
        if_neg (not_le.mpr h6),
        if_neg (not_le.mpr h7),
        if_pos h8,
        if_neg (by push_neg; exact ⟨by linarith, h1.le⟩),
        if_neg (by rintro ⟨x, y⟩ ; linarith),
        if_neg (by rintro ⟨x, y⟩ ; linarith),
        if_neg (by rintro ⟨x, y⟩ ; linarith),
        if_neg (by rintro ⟨x, y⟩ ; linarith),
        if_neg (by rintro ⟨x, y⟩ ; linarith),
        if_neg (by rintro ⟨x, y⟩ ; linarith),
        if_pos ⟨h7.le, h8s⟩]
    rfl
  rw [if_pos (Or.inl h8), if_pos (Or.inl h8.le)]
  rfl

/-- Witness for C6 at 45 degrees: the hypotheses hold and both classifiers
give the NE octant. -/
theorem c6_octant_agreement_witness :
    (45:ℚ) ≠ 0 ∧ jsNormalize 45 ∉ octantBoundaries ∧
    getDirectionIcon 45 = iconOfOctant (getWindDirection "compass" 45) := by
  have hnorm : jsNormalize 45 = 45 := by norm_num [jsNormalize, jsRem, jsTrunc]
  have hmem : jsNormalize 45 ∉ octantBoundaries := by
    rw [hnorm]
    norm_num [octantBoundaries]
  exact ⟨by norm_num, hmem,
    c6_octant_agreement_off_boundaries 45 (by norm_num) hmem⟩

/-! ## Scheduler lemmas -/

theorem step_tick (cfg : SchedConfig) (s : SchedState) :
    step cfg s .tick = getData cfg s := rfl

theorem step_retryFire (cfg : SchedConfig) (s : SchedState) :
    step cfg s .retryFire =
      if s.retryPending = 0 then s
      else getData cfg { s with retryPending := s.retryPending - 1 } := rfl

theorem step_success (cfg : SchedConfig) (s : SchedState) (payload : WindPayload) :
    step cfg s (.success payload) =
      if s.inflight = 0 then s
      else
        { loaded := true, windData := some payload, retryCount := 0,
          inflight := s.inflight - 1, retryPending := s.retryPending,
          issued := s.issued } := rfl

theorem step_failure (cfg : SchedConfig) (s : SchedState) :
    step cfg s .failure =
      if s.inflight = 0 then s
      else
        { loaded := true, windData := none, retryCount := s.retryCount + 1,
          inflight := s.inflight - 1,
          retryPending := if s.retryCount + 1 < cfg.maxRetries
                          then s.retryPending + 1 else s.retryPending,
          issued := s.issued } := rfl

theorem runEvents_nil (cfg : SchedConfig) (s : SchedState) :
    runEvents cfg s [] = s := rfl

theorem runEvents_cons (cfg : SchedConfig) (s : SchedState) (e : SchedEvent)
    (rest : List SchedEvent) :
    runEvents cfg s (e :: rest) = runEvents cfg (step cfg s e) rest := rfl

/-- One step preserves the retry bound, assuming at most one request is in
flight before the step. -/
theorem stepPreservesBound (cfg : SchedConfig) (hmax : 0 < cfg.maxRetries)
    (s : SchedState) (e : SchedEvent)
    (h1 : s.retryCount ≤ cfg.maxRetries)
    (h2 : s.inflight ≠ 0 → s.retryCount < cfg.maxRetries)
    (hs1 : s.inflight ≤ 1) :
    (step cfg s e).retryCount ≤ cfg.maxRetries ∧
    ((step cfg s e).inflight ≠ 0 → (step cfg s e).retryCount < cfg.maxRetries) := by
  cases e with
  | tick =>
    rw [step_tick]
    unfold getData
    by_cases hc : s.retryCount ≥ cfg.maxRetries
    · rw [if_pos hc]
      exact ⟨h1, h2⟩
    · rw [if_neg hc]
      dsimp only
      exact ⟨by omega, fun _ => by omega⟩
  | retryFire =>
    rw [step_retryFire]
    by_cases hp : s.retryPending = 0
    · rw [if_pos hp]
      exact ⟨h1, h2⟩
    · rw [if_neg hp]
      unfold getData
      dsimp only
      by_cases hc : s.retryCount ≥ cfg.maxRetries
      · rw [if_pos hc]
        dsimp only
        exact ⟨h1, h2⟩
      · rw [if_neg hc]
        dsimp only
        exact ⟨by omega, fun _ => by omega⟩
  | success payload =>
    rw [step_success]
    by_cases hi : s.inflight = 0
    · rw [if_pos hi]
      exact ⟨h1, h2⟩
    · rw [if_neg hi]
      dsimp only
      exact ⟨by omega, fun _ => by omega⟩
  | failure =>
    rw [step_failure]
    by_cases hi : s.inflight = 0
    · rw [if_pos hi]
      exact ⟨h1, h2⟩
    · rw [if_neg hi]
      dsimp only
      have hlt : s.retryCount < cfg.maxRetries := h2 hi
      have hinf : s.inflight = 1 := by omega
      exact ⟨by omega, fun hne => by omega⟩

/-- Along any run in which every reachable prefix state keeps at most one
request in flight, the retry counter stays bounded by maxRetries. -/
theorem singleFlightBound (cfg : SchedConfig) (hmax : 0 < cfg.maxRetries) :
    ∀ (trace : List SchedEvent) (s : SchedState),
      s.retryCount ≤ cfg.maxRetries →
      (s.inflight ≠ 0 → s.retryCount < cfg.maxRetries) →
      (∀ k : ℕ, (runEvents cfg s (trace.take k)).inflight ≤ 1) →
      (runEvents cfg s trace).retryCount ≤ cfg.maxRetries := by
  have main : ∀ (trace : List SchedEvent) (s : SchedState),
      s.retryCount ≤ cfg.maxRetries →
      (s.inflight ≠ 0 → s.retryCount < cfg.maxRetries) →
      (∀ k : ℕ, (runEvents cfg s (trace.take k)).inflight ≤ 1) →
      (runEvents cfg s trace).retryCount ≤ cfg.maxRetries ∧
      ((runEvents cfg s trace).inflight ≠ 0 →
        (runEvents cfg s trace).retryCount < cfg.maxRetries) := by
    intro trace
    induction trace with
    | nil => exact fun s h1 h2 _ => ⟨h1, h2⟩
    | cons e rest ih =>
      intro s h1 h2 hflight
      have hs1 : s.inflight ≤ 1 := by
        have h0 := hflight 0
        simpa only [List.take_zero, runEvents_nil] using h0
      obtain ⟨g1, g2⟩ := stepPreservesBound cfg hmax s e h1 h2 hs1
      rw [runEvents_cons]
      refine ih (step cfg s e) g1 g2 ?_
      intro k
      have hk := hflight (k + 1)
      simpa only [List.take_succ_cons, runEvents_cons] using hk
  exact fun trace s h1 h2 hf => (main trace s h1 h2 hf).1

/-- The state after start() when maxRetries is positive: one request in
flight, counter at zero. -/
theorem startState_eq (cfg : SchedConfig) (hmax : 0 < cfg.maxRetries) :
    startState cfg = ⟨false, none, 0, 1, 0, 1⟩ := by
  unfold startState getData
  dsimp only
  rw [if_neg (by omega : ¬(0 ≥ cfg.maxRetries))]

/-! ## Claim theorems on the scheduler and the acquisition pipeline -/

/-- C1: the claim says a periodic-timer firing invokes acquisition even
when the retry state records maxRetries consecutive failures. The code
violates it: in the reachable state after three consecutive failures
(default maxRetries = 3) with no intervening success, the periodic tick
leaves the state untouched — getData returns before sending
GET_WIND_DATA, so no acquisition is issued (the issued counter is
unchanged) and the module never fetches again. -/
theorem c1_tick_suppressed_after_max_failures :
    (runEvents defaultSchedConfig (startState defaultSchedConfig)
        [.failure, .retryFire, .failure, .retryFire, .failure]).retryCount =
      defaultSchedConfig.maxRetries ∧
    step defaultSchedConfig
        (runEvents defaultSchedConfig (startState defaultSchedConfig)
          [.failure, .retryFire, .failure, .retryFire, .failure]) .tick =
      runEvents defaultSchedConfig (startState defaultSchedConfig)
        [.failure, .retryFire, .failure, .retryFire, .failure] :=
  ⟨rfl, rfl⟩

/-- C2: the claim says a YR document whose details block lacks the
wind_speed or wind_from_direction numeric field yields a schema mismatch
and never a partially populated observation. The code violates it: on
such a document parseYrData succeeds with both payload fields undefined,
the acquisition pipeline delivers it as WIND_DATA, and the renderer
displays it as current data. -/
theorem c2_yr_partial_payload_delivered :
    parseYrData exYrNoWind = .ok ⟨none, none⟩ ∧
    getWindData "yr" (.response 200 (.wellFormed exYrNoWind)) =
      (.windData ⟨none, none⟩, true) ∧
    getDomState (step defaultSchedConfig (startState defaultSchedConfig)
      (.success ⟨none, none⟩)) = .display ⟨none, none⟩ :=
  ⟨rfl, rfl, rfl⟩

/-- C3 counterexample: with the default maxRetries = 3, a reachable run in
which two acquisitions overlap drives retryCount to 4, so attemptCount
does exceed maxRetries in a reachable scheduler state. -/
theorem c3_overlap_exceeds_max_retries :
    defaultSchedConfig.maxRetries = 3 ∧
    (runEvents defaultSchedConfig (startState defaultSchedConfig)
      [.tick, .failure, .failure, .retryFire, .tick, .failure, .failure]).retryCount = 4 :=
  ⟨rfl, rfl⟩

/-- C3 amended: a retry timer is armed only by a failure response and only
while the incremented attemptCount is below maxRetries; a successful
acquisition resets attemptCount to 0; and in every execution in which at
most one acquisition is in flight at a time, attemptCount never exceeds
maxRetries. With overlapping in-flight acquisitions the bound fails (see
the counterexample). -/
theorem c3_retry_invariants :
    (∀ (cfg : SchedConfig) (s : SchedState) (e : SchedEvent),
        s.retryPending < (step cfg s e).retryPending →
        e = .failure ∧ (step cfg s e).retryCount < cfg.maxRetries) ∧
    (∀ (cfg : SchedConfig) (s : SchedState) (payload : WindPayload),
        0 < s.inflight → (step cfg s (.success payload)).retryCount = 0) ∧
    (∀ (cfg : SchedConfig) (trace : List SchedEvent), 0 < cfg.maxRetries →
        (∀ k : ℕ, (runEvents cfg (startState cfg) (trace.take k)).inflight ≤ 1) →
        (runEvents cfg (startState cfg) trace).retryCount ≤ cfg.maxRetries) := by
  refine ⟨?_, ?_, ?_⟩
  · intro cfg s e h
    cases e with
    | tick =>
      exfalso
      rw [step_tick] at h
      unfold getData at h
      by_cases hc : s.retryCount ≥ cfg.maxRetries
      · rw [if_pos hc] at h
        exact absurd h (lt_irrefl _)
      · rw [if_neg hc] at h
        dsimp only at h
        exact absurd h (lt_irrefl _)
    | retryFire =>
      exfalso
      rw [step_retryFire] at h
      by_cases hp : s.retryPending = 0
      · rw [if_pos hp] at h
        exact absurd h (lt_irrefl _)
      · rw [if_neg hp] at h
        unfold getData at h
        dsimp only at h
        by_cases hc : s.retryCount ≥ cfg.maxRetries
        · rw [if_pos hc] at h
          dsimp only at h
          omega
        · rw [if_neg hc] at h
          dsimp only at h
          omega
    | success payload =>
      exfalso
      rw [step_success] at h
      by_cases hi : s.inflight = 0
      · rw [if_pos hi] at h
        exact absurd h (lt_irrefl _)
      · rw [if_neg hi] at h
        dsimp only at h
        exact absurd h (lt_irrefl _)
    | failure =>
      refine ⟨rfl, ?_⟩
      rw [step_failure] at h ⊢
      by_cases hi : s.inflight = 0
      · rw [if_pos hi] at h
        exact absurd h (lt_irrefl _)
      · rw [if_neg hi] at h ⊢
        dsimp only at h ⊢
        by_cases hrc : s.retryCount + 1 < cfg.maxRetries
        · exact hrc
        · rw [if_neg hrc] at h
          exact absurd h (lt_irrefl _)
  · intro cfg s payload h
    have hi : ¬(s.inflight = 0) := by omega
    rw [step_success, if_neg hi]
  · intro cfg trace hmax hf
    refine singleFlightBound cfg hmax trace (startState cfg) ?_ ?_ hf
    · rw [startState_eq cfg hmax]
      exact Nat.zero_le _
    · rw [startState_eq cfg hmax]
      exact fun _ => hmax

/-- Witness for C3 at the default configuration: the first failure arms a
retry with attemptCount 1 below maxRetries 3, a success on the in-flight
request resets the counter, and the single-flight run of one failure
respects the bound. -/
theorem c3_retry_invariants_witness :
    ((startState defaultSchedConfig).retryPending <
        (step defaultSchedConfig (startState defaultSchedConfig) .failure).retryPending ∧
      (step defaultSchedConfig (startState defaultSchedConfig) .failure).retryCount <
        defaultSchedConfig.maxRetries) ∧
    (0 < (startState defaultSchedConfig).inflight ∧
      (step defaultSchedConfig (startState defaultSchedConfig)
        (.success ⟨none, none⟩)).retryCount = 0) ∧
    (0 < defaultSchedConfig.maxRetries ∧
      (runEvents defaultSchedConfig (startState defaultSchedConfig)
        [.failure]).retryCount ≤ defaultSchedConfig.maxRetries) := by
  refine ⟨⟨by decide, (c3_retry_invariants.1 _ _ _ (by decide)).2⟩,
          ⟨by decide, c3_retry_invariants.2.1 _ _ ⟨none, none⟩ (by decide)⟩,
          ⟨by decide, c3_retry_invariants.2.2 _ [.failure] (by decide) ?_⟩⟩
  intro k
  cases k with
  | zero => decide
  | succ n =>
    simp only [List.take_succ_cons, List.take_nil]
    decide

/-- C8: SMHI parsing succeeds exactly when the parameters sequence is
present and the by-name lookups of "ws" and "wd" complete with numeric
first values, in which case the payload carries exactly those two values;
in every other case it fails. Includes the concrete response with ws 7.5
and wd 180, the concrete response missing wd, and a response whose
parameters array holds a null element, on which the find callback of the
source throws before any value is extracted. -/
theorem c8_smhi_parse_exact :
    (∀ (doc : Json) (ps : List Json) (s w : ℚ),
        smhiParameters doc = some (.arr ps) →
        smhiFirstValue ps "ws" = .ok (some (.num s)) →
        smhiFirstValue ps "wd" = .ok (some (.num w)) →
        parseSmhiData doc = .ok ⟨some (.num s), some (.num w)⟩) ∧
    (∀ (doc : Json) (payload : WindPayload),
        parseSmhiData doc = .ok payload →
        ∃ (ps : List Json) (s w : ℚ), smhiParameters doc = some (.arr ps) ∧
          smhiFirstValue ps "ws" = .ok (some (.num s)) ∧
          smhiFirstValue ps "wd" = .ok (some (.num w)) ∧
          payload = ⟨some (.num s), some (.num w)⟩) ∧
    parseSmhiData exSmhiDoc = .ok ⟨some (.num 7.5), some (.num 180)⟩ ∧
    parseSmhiData exSmhiNoWd = .error "Missing wind parameters" ∧
    parseSmhiData exSmhiNullParam =
      .error "TypeError: Cannot read properties of null" := by
  refine ⟨?_, ?_, rfl, rfl, rfl⟩
  · intro doc ps s w h1 h2 h3
    simp only [parseSmhiData, h1, truthy, h2, h3]
    rw [if_pos trivial]
  · intro doc payload h
    unfold parseSmhiData at h
    cases hsp : smhiParameters doc with
    | none =>
      rw [hsp] at h
      simp at h
    | some ps =>
      rw [hsp] at h
      by_cases ht : truthy ps = true
      · simp only [ht, if_true] at h
        cases ps with
        | arr params =>
          cases hws : smhiFirstValue params "ws" with
          | error e => simp [hws] at h
          | ok windSpeed =>
            cases hwd : smhiFirstValue params "wd" with
            | error e => simp [hws, hwd] at h
            | ok windDirection =>
              simp only [hws, hwd] at h
              cases windSpeed with
              | none => simp at h
              | some v =>
                cases v with
                | num s =>
                  cases windDirection with
                  | none => simp at h
                  | some u =>
                    cases u with
                    | num w =>
                      simp only [Except.ok.injEq] at h
                      exact ⟨params, s, w, rfl, hws, hwd, h.symm⟩
                    | str t => simp at h
                    | bool b => simp at h
                    | null => simp at h
                    | arr l => simp at h
                    | obj fs => simp at h
                | str t => simp at h
                | bool b => simp at h
                | null => simp at h
                | arr l => simp at h
                | obj fs => simp at h
        | num q => simp at h
        | str t => simp at h
        | bool b => simp at h
        | null => simp at h
        | obj fs => simp at h
      · rw [Bool.not_eq_true] at ht
        simp [ht] at h

/-- Witness for C8 at the concrete SMHI response: the hypotheses hold for
exSmhiDoc and parsing yields windSpeed 7.5 and windDirection 180. -/
theorem c8_smhi_parse_witness :
    smhiParameters exSmhiDoc = some (.arr exSmhiParams) ∧
    smhiFirstValue exSmhiParams "ws" = .ok (some (.num 7.5)) ∧
    smhiFirstValue exSmhiParams "wd" = .ok (some (.num 180)) ∧
    parseSmhiData exSmhiDoc = .ok ⟨some (.num 7.5), some (.num 180)⟩ ∧
    (∃ (ps : List Json) (s w : ℚ),
      smhiParameters exSmhiDoc = some (.arr ps) ∧
      smhiFirstValue ps "ws" = .ok (some (.num s)) ∧
      smhiFirstValue ps "wd" = .ok (some (.num w)) ∧
      (⟨some (.num 7.5), some (.num 180)⟩ : WindPayload) =
        ⟨some (.num s), some (.num w)⟩) :=
  ⟨rfl, rfl, rfl,
    c8_smhi_parse_exact.1 exSmhiDoc exSmhiParams 7.5 180 rfl rfl rfl,
    c8_smhi_parse_exact.2.1 exSmhiDoc ⟨some (.num 7.5), some (.num 180)⟩ rfl⟩

/-- C9: every acquisition failure (timeout, transport failure, non-200
status, malformed body, provider schema mismatch) is delivered as the one
payload-free WIND_DATA_ERROR signal, and a non-200 status is delivered
without the provider parser being invoked. -/
theorem c9_errors_collapse :
    (∀ provider : String,
        getWindData provider .timeout = (.windDataError, false)) ∧
    (∀ provider : String,
        getWindData provider .transportError = (.windDataError, false)) ∧
    (∀ (provider : String) (status : ℕ) (body : RawBody), status ≠ 200 →
        getWindData provider (.response status body) = (.windDataError, false)) ∧
    (∀ provider : String,
        getWindData provider (.response 200 .malformed) = (.windDataError, false)) ∧
    (∀ (provider : String) (j : Json) (e : String),
        parseProviderData j provider = .error e →
        getWindData provider (.response 200 (.wellFormed j)) = (.windDataError, true)) := by
  refine ⟨fun _ => rfl, fun _ => rfl, ?_, fun _ => rfl, ?_⟩
  · intro provider status body hst
    simp only [getWindData]
    rw [if_pos hst]
  · intro provider j e he
    simp only [getWindData]
    rw [if_neg (by norm_num : ¬((200:ℕ) ≠ 200))]
    simp only [he]

/-- Witness for C9: an HTTP 404 with a parseable body fails without the
parser running, and the SMHI parser failing on a null document yields the
same signal with the parser having run. -/
theorem c9_errors_collapse_witness :
    ((404:ℕ) ≠ 200 ∧
      getWindData "smhi" (.response 404 (.wellFormed .null)) =
        (.windDataError, false)) ∧
    (parseProviderData .null "smhi" = .error "Invalid SMHI data structure" ∧
      getWindData "smhi" (.response 200 (.wellFormed .null)) =
        (.windDataError, true)) :=
  ⟨⟨by decide, c9_errors_collapse.2.2.1 "smhi" 404 (.wellFormed .null) (by decide)⟩,
   ⟨rfl, c9_errors_collapse.2.2.2.2 "smhi" .null _ rfl⟩⟩

/-- C10: whenever a failure signal is received for an in-flight
acquisition, the stored observation is cleared to null and the renderer
shows the generic error state, never the previous observation. -/
theorem c10_failure_clears_observation :
    ∀ (cfg : SchedConfig) (s : SchedState), 0 < s.inflight →
      (step cfg s .failure).windData = none ∧
      getDomState (step cfg s .failure) = .error := by
  intro cfg s h
  have hi : ¬(s.inflight = 0) := by omega
  rw [step_failure, if_neg hi]
  exact ⟨rfl, rfl⟩

/-- Witness for C10 at the start state, which has one in-flight request. -/
theorem c10_failure_clears_observation_witness :
    0 < (startState defaultSchedConfig).inflight ∧
    (step defaultSchedConfig (startState defaultSchedConfig) .failure).windData =
      none ∧
    getDomState (step defaultSchedConfig (startState defaultSchedConfig)
      .failure) = .error := by
  have h : 0 < (startState defaultSchedConfig).inflight := by decide
  exact ⟨h, (c10_failure_clears_observation _ _ h).1,
    (c10_failure_clears_observation _ _ h).2⟩

/-- C7: for every latitude in [-90, 90] and longitude in [-180, 180] (and
any altitude), the SMHI URL builder formats each coordinate with exactly
six digits after the decimal point (11 becomes "11.000000"), and the
endpoint path embeds the formatted longitude before the formatted
latitude. -/
theorem c7_smhi_coordinate_format :
    (∀ (lat lon : ℚ) (alt : ℤ), -90 ≤ lat → lat ≤ 90 → -180 ≤ lon → lon ≤ 180 →
      sixFracDigits (formatCoordinate lat) ∧
      sixFracDigits (formatCoordinate lon) ∧
      getProviderUrl ⟨"smhi", lat, lon, alt⟩ =
        "https://opendata-download-metfcst.smhi.se/api/category/pmp3g/version/2/geotype/point/lon/"
          ++ formatCoordinate lon ++ "/lat/" ++ formatCoordinate lat
          ++ "/data.json") ∧
    formatCoordinate 11 = "11.000000" := by
  refine ⟨?_, formatCoordinate_eleven⟩
  intro lat lon alt _ _ _ _
  refine ⟨toFixed6_digits lat, toFixed6_digits lon, ?_⟩
  unfold getProviderUrl
  dsimp only
  rw [if_neg (by decide : ¬(("smhi":String) = "yr"))]

/-- Witness for C7 at latitude 11 and longitude 11, inside both ranges. -/
theorem c7_smhi_coordinate_format_witness :
    ((-90:ℚ) ≤ 11 ∧ (11:ℚ) ≤ 90 ∧ (-180:ℚ) ≤ 11 ∧ (11:ℚ) ≤ 180) ∧
    sixFracDigits (formatCoordinate 11) ∧
    getProviderUrl ⟨"smhi", 11, 11, 0⟩ =
      "https://opendata-download-metfcst.smhi.se/api/category/pmp3g/version/2/geotype/point/lon/"
        ++ formatCoordinate 11 ++ "/lat/" ++ formatCoordinate 11
        ++ "/data.json" := by
  have h := c7_smhi_coordinate_format.1 11 11 0
    (by norm_num) (by norm_num) (by norm_num) (by norm_num)
  exact ⟨⟨by norm_num, by norm_num, by norm_num, by norm_num⟩, h.1, h.2.2⟩

end MultiWind
